import Mathlib

/-!
Shallow embedding of the structured-extraction engine of the incident-parser
repository (`src/tools/incident_tools.py` and the batch endpoint of
`src/main.py`), together with theorems settling the frozen claims about it.

The Python code is embedded as executable Lean definitions:
* the fixed regular expressions of the pattern library are encoded as values
  of a small regex AST and run by a backtracking matcher that mirrors the
  semantics of Python's `re.search` (leftmost match, ordered alternation,
  greedy/lazy quantifiers, capture groups);
* `datetime.now()` becomes an explicit `PyDateTime` parameter;
* the network call of the generative path becomes an explicit `GenOutcome`
  parameter describing what the transport layer produced;
* Python dicts produced by `json.loads` become a `JVal` JSON tree, and the
  dictionaries returned by the engine become a `ParseResult` structure whose
  `incident` field is a `JVal` (an association list in insertion order, as in
  CPython).
-/

set_option autoImplicit false

deriving instance DecidableEq for Except

namespace IncidentTools

/-! ### Character helpers

Python string/regex matching in this code base is case-insensitive and the
texts are Portuguese.  `myLower`/`myUpper` model `str.lower`/`str.upper`
(and `re.IGNORECASE` folding) on the alphabet actually reachable here:
ASCII plus the Latin-1 letters (`á`, `é`, `ç`, `õ`, …). -/

def myLower (c : Char) : Char :=
  if 'A' ≤ c ∧ c ≤ 'Z' then Char.ofNat (c.toNat + 32)
  else if 0xC0 ≤ c.toNat ∧ c.toNat ≤ 0xDE ∧ c.toNat ≠ 0xD7 then Char.ofNat (c.toNat + 32)
  else c

def myUpper (c : Char) : Char :=
  if 'a' ≤ c ∧ c ≤ 'z' then Char.ofNat (c.toNat - 32)
  else if 0xE0 ≤ c.toNat ∧ c.toNat ≤ 0xFE ∧ c.toNat ≠ 0xF7 then Char.ofNat (c.toNat - 32)
  else c

/-- Python's `\s` (on the whitespace characters reachable in this code). -/
def isSpacePy (c : Char) : Bool :=
  c == ' ' || c == '\t' || c == '\n' || c == '\r' || c == '\x0b' || c == '\x0c'

/-- Python's `\d` (the incident texts use ASCII digits). -/
def isDigitPy (c : Char) : Bool :=
  '0' ≤ c && c ≤ '9'

/-- Python's `\w` (word character), on ASCII plus Latin-1 letters. -/
def isWordPy (c : Char) : Bool :=
  ('a' ≤ myLower c && myLower c ≤ 'z') || isDigitPy c || c == '_' ||
    (0xC0 ≤ c.toNat && c.toNat ≤ 0xFF && c.toNat ≠ 0xD7 && c.toNat ≠ 0xF7)

/-- Lowercase a whole string (model of Python `str.lower()`). -/
def lowerStr (s : String) : String :=
  String.mk (s.toList.map myLower)

/-- Model of Python `str.capitalize()`: first character uppercased, the rest
lowercased. -/
def capitalizePy (s : String) : String :=
  match s.toList with
  | [] => ""
  | c :: rest => String.mk (myUpper c :: rest.map myLower)

/-- `int(s)` on a nonempty string of ASCII digits. -/
def digitsToNat (s : String) : Nat :=
  s.toList.foldl (fun a c => a * 10 + (c.toNat - '0'.toNat)) 0

/-- Substring test on character lists (model of Python's `needle in hay`). -/
def containsSubL (n : List Char) : List Char → Bool
  | [] => n.isEmpty
  | c :: t => if n.isPrefixOf (c :: t) then true else containsSubL n t

/-- Model of Python's `needle in hay` on strings. -/
def containsSub (n hay : String) : Bool :=
  containsSubL n.toList hay.toList

/-! ### Dates

`PyDateTime` models the result of `datetime.now()`.  Day subtraction
(`datetime - timedelta(days=k)`) is implemented through the standard
civil-date/day-number conversion (proleptic Gregorian calendar, valid for
CE dates, which covers every reachable `datetime.now()`). -/

structure PyDateTime where
  year : Nat
  month : Nat
  day : Nat
  hour : Nat
  minute : Nat
  deriving DecidableEq, Repr

/-- Day number of a civil date (days since 0000-03-01). -/
def civilToDays (y m d : Nat) : Nat :=
  let y' := if m ≤ 2 then y - 1 else y
  let era := y' / 400
  let yoe := y' % 400
  let mp := (m + 9) % 12
  let doy := (153 * mp + 2) / 5 + d - 1
  let doe := yoe * 365 + yoe / 4 - yoe / 100 + doy
  era * 146097 + doe

/-- Civil date of a day number (inverse of `civilToDays`). -/
def daysToCivil (z : Nat) : Nat × Nat × Nat :=
  let era := z / 146097
  let doe := z % 146097
  let yoe := (doe - doe / 1460 + doe / 36524 - doe / 146096) / 365
  let doy := doe - (365 * yoe + yoe / 4 - yoe / 100)
  let mp := (5 * doy + 2) / 153
  let d := doy - (153 * mp + 2) / 5 + 1
  let m := if mp < 10 then mp + 3 else mp - 9
  (if m ≤ 2 then yoe + era * 400 + 1 else yoe + era * 400, m, d)

/-- `dt - timedelta(days=k)` (the time of day is unchanged). -/
def subDays (dt : PyDateTime) (k : Nat) : PyDateTime :=
  let n := civilToDays dt.year dt.month dt.day - k
  let c := daysToCivil n
  { dt with year := c.1, month := c.2.1, day := c.2.2 }

/-- Left-pad a numeral with zeros to width `w`. -/
def padNum (w n : Nat) : String :=
  let s := toString n
  String.mk (List.replicate (w - s.length) '0') ++ s

/-- `strftime("%Y-%m-%d")`. -/
def fmtDate (dt : PyDateTime) : String :=
  padNum 4 dt.year ++ "-" ++ padNum 2 dt.month ++ "-" ++ padNum 2 dt.day

/-- `strftime("%Y-%m-%d %H:%M")`. -/
def fmtDateTime (dt : PyDateTime) : String :=
  fmtDate dt ++ " " ++ padNum 2 dt.hour ++ ":" ++ padNum 2 dt.minute

/-! ### A small regex engine

The pattern library of `incident_tools.py` consists of a fixed set of
regular expressions, each used through `re.search(pattern, text)` with
`re.IGNORECASE` (or, equivalently, against a lowercased copy of the text).
`RE` is an AST covering exactly the constructs those patterns use, and
`matchRE` is a backtracking matcher reproducing Python's semantics:
alternatives are tried in declared order, `*`/`+`/`?` are greedy with
backtracking, `+?` is lazy, and `re.search` returns the match at the
leftmost possible start position.  Literal characters compare
case-insensitively (via `myLower`); capture groups record the consumed
substring of the original (non-lowercased) text. -/

inductive RE where
  | lit (s : String)
  | cls (p : Char → Bool)
  | seq (a b : RE)
  | alt (a b : RE)
  | star (a : RE)
  | plus (a : RE)
  | lazyPlus (a : RE)
  | opt (a : RE)
  | grp (n : Nat) (a : RE)

/-- Number of capture groups declared in a pattern
(model of `len(match.groups())`, which depends only on the pattern). -/
def countGroups : RE → Nat
  | .lit _ => 0
  | .cls _ => 0
  | .seq a b => countGroups a + countGroups b
  | .alt a b => countGroups a + countGroups b
  | .star a => countGroups a
  | .plus a => countGroups a
  | .lazyPlus a => countGroups a
  | .opt a => countGroups a
  | .grp _ a => 1 + countGroups a

/-- The capture environment of a match: group number ↦ captured text
(most recent binding first). -/
abbrev Groups := List (Nat × String)

/-- Case-insensitive prefix test of a (lowercase) literal. -/
def litPrefix : List Char → List Char → Option (List Char)
  | [], cs => some cs
  | _ :: _, [] => none
  | l :: ls, c :: cs => if myLower c == l then litPrefix ls cs else none

/-- Backtracking matcher.  `matchRE fuel re cs env k` matches `re` against a
prefix of `cs`, extending the capture environment `env`, and calls the
continuation `k` on the rest; the first success in Python's backtracking
order wins.  `fuel` bounds the recursion depth; `fuelFor` below always
provides enough for the patterns of this code base (whose repeated bodies
all consume at least one character per iteration, which the `star` and
`lazyPlus` cases also enforce, as Python's engine does to avoid empty-width
loops). -/
def matchRE : Nat → RE → List Char → Groups → (List Char → Groups → Option Groups) → Option Groups
  | 0, _, _, _, _ => none
  | fuel + 1, re, cs, env, k =>
    match re with
    | .lit s =>
      match litPrefix (s.toList.map myLower) cs with
      | some rest => k rest env
      | none => none
    | .cls p =>
      match cs with
      | [] => none
      | c :: rest => if p c then k rest env else none
    | .seq a b => matchRE fuel a cs env (fun cs' env' => matchRE fuel b cs' env' k)
    | .alt a b =>
      match matchRE fuel a cs env k with
      | some r => some r
      | none => matchRE fuel b cs env k
    | .star a =>
      match matchRE fuel a cs env (fun cs' env' =>
          if cs'.length < cs.length then matchRE fuel (.star a) cs' env' k else none) with
      | some r => some r
      | none => k cs env
    | .plus a => matchRE fuel (.seq a (.star a)) cs env k
    | .lazyPlus a =>
      matchRE fuel a cs env (fun cs' env' =>
        match k cs' env' with
        | some r => some r
        | none =>
          if cs'.length < cs.length then matchRE fuel (.lazyPlus a) cs' env' k else none)
    | .opt a =>
      match matchRE fuel a cs env k with
      | some r => some r
      | none => k cs env
    | .grp n a =>
      matchRE fuel a cs env (fun cs' env' =>
        k cs' ((n, String.mk (cs.take (cs.length - cs'.length))) :: env'))

/-- Structural size of a pattern, used only for the fuel bound. -/
def sizeRE : RE → Nat
  | .lit _ => 1
  | .cls _ => 1
  | .seq a b => sizeRE a + sizeRE b + 1
  | .alt a b => sizeRE a + sizeRE b + 1
  | .star a => sizeRE a + 1
  | .plus a => sizeRE a + 2
  | .lazyPlus a => sizeRE a + 1
  | .opt a => sizeRE a + 1
  | .grp _ a => sizeRE a + 1

/-- A fuel amount sufficient for any single match attempt of `re` on `cs`. -/
def fuelFor (re : RE) (cs : List Char) : Nat :=
  (sizeRE re + 2) * (cs.length + 2) + 64

/-- Try to match `re` starting exactly at the head of `cs`; on success
return the capture environment. -/
def runRE (re : RE) (cs : List Char) : Option Groups :=
  matchRE (fuelFor re cs) re cs [] (fun _ env => some env)

/-- Model of `re.search(re, text)`: leftmost match wins.  Returns the
capture environment of the first match, or `none`. -/
def searchFrom (re : RE) : List Char → Option Groups
  | [] => runRE re []
  | c :: rest =>
    match runRE re (c :: rest) with
    | some g => some g
    | none => searchFrom re rest

def searchRE (re : RE) (text : String) : Option Groups :=
  searchFrom re text.toList

/-- `match.group(n)` as an `Option` (absent group → `None`). -/
def groupVal (g : Groups) (n : Nat) : Option String :=
  (g.find? (fun p => p.1 == n)).map (fun p => p.2)

/-- `match.group(n)` where the group is known to participate; Python would
raise on `None`, which is unreachable in this code base. -/
def groupStr (g : Groups) (n : Nat) : String :=
  (groupVal g n).getD ""

/-- Ordered alternation `x|y|z|…` (first alternative wins). -/
def alts : List RE → RE
  | [] => .cls (fun _ => false)
  | [r] => r
  | r :: rs => .alt r (alts rs)

/-- Sequencing of a pattern list. -/
def seqs : List RE → RE
  | [] => .lit ""
  | [r] => r
  | r :: rs => .seq r (seqs rs)

/-! ### The pattern library

Each definition below is the direct transcription of one regex literal of
`incident_tools.py`; character classes are the predicates they denote under
`re.IGNORECASE`. -/

/-- `\s` -/
def sp : RE := .cls isSpacePy
/-- `\d` -/
def dig : RE := .cls isDigitPy
/-- `\d{1,2}` (greedy: two digits preferred). -/
def dig12 : RE := .alt (.seq dig dig) dig
/-- `[^,\.\s]` -/
def notCommaDotSp : RE := .cls (fun c => !(c == ',' || c == '.' || isSpacePy c))
/-- `[^,\.]` -/
def notCommaDot : RE := .cls (fun c => !(c == ',' || c == '.'))
/-- `[A-Z]` under `re.IGNORECASE` (any ASCII letter). -/
def upperCI : RE := .cls (fun c => 'a' ≤ myLower c && myLower c ≤ 'z')
/-- `[a-záêçõ\s]` under `re.IGNORECASE`. -/
def nameChar : RE := .cls (fun c =>
  ('a' ≤ myLower c && myLower c ≤ 'z') ||
  myLower c == 'á' || myLower c == 'ê' || myLower c == 'ç' || myLower c == 'õ' ||
  isSpacePy c)
/-- `[:\s]` -/
def colonSp : RE := .cls (fun c => c == ':' || isSpacePy c)

/-- `(?:no|na|em|do|da)\s+(?:escritório|filial|sede|unidade)\s+(?:de|do|da)?\s*([^,\.\s]+)` -/
def locPattern1 : RE := seqs
  [ alts [.lit "no", .lit "na", .lit "em", .lit "do", .lit "da"]
  , .plus sp
  , alts [.lit "escritório", .lit "filial", .lit "sede", .lit "unidade"]
  , .plus sp
  , .opt (alts [.lit "de", .lit "do", .lit "da"])
  , .star sp
  , .grp 1 (.plus notCommaDotSp) ]

/-- `(?:em|na|no)\s+([A-Z][a-záêçõ\s]+?)(?:\s*,|\s*\.|\s*que|\s*houve)` -/
def locPattern2 : RE := seqs
  [ alts [.lit "em", .lit "na", .lit "no"]
  , .plus sp
  , .grp 1 (.seq upperCI (.lazyPlus nameChar))
  , alts [.seq (.star sp) (.lit ","), .seq (.star sp) (.lit "."),
          .seq (.star sp) (.lit "que"), .seq (.star sp) (.lit "houve")] ]

/-- `local[:\s]+([^,\.]+)` -/
def locPattern3 : RE := seqs
  [ .lit "local", .plus colonSp, .grp 1 (.plus notCommaDot) ]

/-- `(<stem>\s+(?:no|na|do|da)\s+[^,\.]+)` for the five incident-type stems. -/
def typePattern (stem : String) : RE :=
  .grp 1 (seqs
    [ .lit stem, .plus sp
    , alts [.lit "no", .lit "na", .lit "do", .lit "da"]
    , .plus sp, .plus notCommaDot ])

def typePatterns : List RE :=
  [ typePattern "falha", typePattern "erro", typePattern "problema"
  , typePattern "interrupção", typePattern "pane" ]

/-- `(afetou\s+[^,\.]+(?:\s+por\s+[^,\.]+)?)` -/
def impPattern1 : RE := .grp 1 (seqs
  [ .lit "afetou", .plus sp, .plus notCommaDot
  , .opt (seqs [.plus sp, .lit "por", .plus sp, .plus notCommaDot]) ])

/-- `(indisponível\s+por\s+[^,\.]+)` -/
def impPattern2 : RE := .grp 1 (seqs
  [ .lit "indisponível", .plus sp, .lit "por", .plus sp, .plus notCommaDot ])

/-- `(duração\s+de\s+[^,\.]+)` -/
def impPattern3 : RE := .grp 1 (seqs
  [ .lit "duração", .plus sp, .lit "de", .plus sp, .plus notCommaDot ])

/-- `(por\s+\d+\s+(?:horas?|minutos?|dias?))` -/
def impPattern4 : RE := .grp 1 (seqs
  [ .lit "por", .plus sp, .plus dig, .plus sp
  , alts [.seq (.lit "hora") (.opt (.lit "s")),
          .seq (.lit "minuto") (.opt (.lit "s")),
          .seq (.lit "dia") (.opt (.lit "s"))] ])

/-- `(ficou\s+[^,\.]+\s+por\s+[^,\.]+)` -/
def impPattern5 : RE := .grp 1 (seqs
  [ .lit "ficou", .plus sp, .plus notCommaDot, .plus sp
  , .lit "por", .plus sp, .plus notCommaDot ])

def impPatterns : List RE :=
  [ impPattern1, impPattern2, impPattern3, impPattern4, impPattern5 ]

/-- `(\d{1,2})h(\d{2})?` -/
def datePattern1 : RE := seqs
  [ .grp 1 dig12, .lit "h", .opt (.grp 2 (.seq dig dig)) ]

/-- `(\d{1,2}):(\d{2})` -/
def datePattern2 : RE := seqs
  [ .grp 1 dig12, .lit ":", .grp 2 (.seq dig dig) ]

/-- `às (\d{1,2})` -/
def datePattern3 : RE := seqs
  [ .lit "às ", .grp 1 dig12 ]

/-- `\d{1,2}h` (time indicator of the Normalizer). -/
def timeIndicator1 : RE := .seq dig12 (.lit "h")
/-- `\d{1,2}:\d{2}` -/
def timeIndicator2 : RE := seqs [dig12, .lit ":", dig, dig]
/-- `às \d+` -/
def timeIndicator3 : RE := .seq (.lit "às ") (.plus dig)

def timeIndicators : List RE :=
  [ timeIndicator1, timeIndicator2, timeIndicator3
  , .lit "pela manhã", .lit "à tarde", .lit "à noite" ]

/-- Case-insensitive `\b<w>\b` search (for the Normalizer's relative-date
check); `w` is a word made of word characters, so the boundary conditions
are that the neighbouring characters are not word characters. -/
def wordSearch (w : List Char) : Option Char → List Char → Bool
  | prev, cs =>
    let boundaryBefore := match prev with
      | none => true
      | some c => !isWordPy c
    let afterOk := match cs.drop w.length with
      | [] => true
      | c :: _ => !isWordPy c
    if boundaryBefore && litPrefix w cs != none && afterOk then true
    else
      match cs with
      | [] => false
      | c :: rest => wordSearch w (some c) rest

/-- `re.search(rf'\b{w}\b', text, re.IGNORECASE)` as a Bool. -/
def containsWordCI (w : String) (text : String) : Bool :=
  wordSearch (w.toList.map myLower) none text.toList

/-! ### Normalizer (`preprocess_incident_text` and helpers) -/

/-- `text.strip()` (whitespace stripped from both ends). -/
def stripL (cs : List Char) : List Char :=
  ((cs.dropWhile isSpacePy).reverse.dropWhile isSpacePy).reverse

/-- `s.strip()` on strings. -/
def pyStrip (s : String) : String :=
  String.mk (stripL s.toList)

/-- One-pass state machine for `re.sub(r'\s+', ' ', cs)`: the first space
of each whitespace run is emitted as `' '`, the rest of the run is
dropped. -/
def collapseGo (inRun : Bool) : List Char → List Char
  | [] => []
  | c :: rest =>
    if isSpacePy c then
      if inRun then collapseGo true rest else ' ' :: collapseGo true rest
    else c :: collapseGo false rest

/-- `re.sub(r'\s+', ' ', cs)`: collapse whitespace runs to single spaces. -/
def collapseWs (cs : List Char) : List Char :=
  collapseGo false cs

/-- One-pass state machine for `re.sub(r'\s*<sep>\s*', '<sep> ', cs)`.
Python's scanner looks for the next position where optional whitespace is
followed by the separator, replaces the whole run (leading whitespace,
separator, trailing greedy whitespace) by `"<sep> "`, and resumes after
it.  `pending` buffers spaces that may yet turn out to lead a match
(reversed); `skipping` drops the trailing whitespace of a completed
match. -/
def subPunctGo (sep : Char) (skipping : Bool) (pending : List Char) : List Char → List Char
  | [] => if skipping then [] else pending.reverse
  | c :: rest =>
    if isSpacePy c then
      if skipping then subPunctGo sep true [] rest
      else subPunctGo sep false (c :: pending) rest
    else if c = sep then sep :: ' ' :: subPunctGo sep true [] rest
    else (if skipping then [] else pending.reverse) ++ c :: subPunctGo sep false [] rest

/-- `re.sub(r'\s*<sep>\s*', '<sep> ', cs)` for a literal separator
character (used with `,` and `.`). -/
def subPunct (sep : Char) (cs : List Char) : List Char :=
  subPunctGo sep false [] cs

/-- `_basic_text_cleaning` -/
def _basic_text_cleaning (text : String) : String :=
  let t1 := collapseWs (stripL text.toList)
  let t2 := subPunct ',' t1
  let t3 := subPunct '.' t2
  let t4 := if t3.getLast? = some '.' then t3 else t3 ++ ['.']
  String.mk t4

def relative_dates : List String := ["ontem", "hoje", "anteontem"]

/-- `_add_missing_time_context` -/
def _add_missing_time_context (text : String) : String :=
  let has_relative_date := relative_dates.any (fun d => containsWordCI d text)
  let has_time_info := timeIndicators.any (fun p => (searchRE p text).isSome)
  if has_relative_date && !has_time_info then text ++ " (horário não especificado)"
  else text

/-- `_add_date_reference` (the ambient `datetime.now()` is the explicit
parameter `now`). -/
def _add_date_reference (now : PyDateTime) (text : String) : String :=
  if relative_dates.any (fun w => containsSub w (lowerStr text)) then
    text ++ " [Referência: " ++ fmtDate now ++ "]"
  else text

/-- `preprocess_incident_text` -/
def preprocess_incident_text (now : PyDateTime) (text : String) : String :=
  _add_date_reference now (_add_missing_time_context (_basic_text_cleaning text))

/-! ### Deterministic extractor -/

/-- The hour/minute selected by `_extract_date_info`'s time-pattern loop:
the three patterns are tried in declared order against the lowercased text,
the first one that matches anywhere supplies `int(group(1))` as the hour
and, when the pattern declares a second group that participates,
`int(group(2))` as the minute; the defaults are `0`/`0`. -/
def extractHM (text : String) : Nat × Nat :=
  match searchRE datePattern1 text with
  | some g =>
    (digitsToNat (groupStr g 1),
     if countGroups datePattern1 > 1 then
       match groupVal g 2 with
       | some s => digitsToNat s
       | none => 0
     else 0)
  | none =>
    match searchRE datePattern2 text with
    | some g =>
      (digitsToNat (groupStr g 1),
       if countGroups datePattern2 > 1 then
         match groupVal g 2 with
         | some s => digitsToNat s
         | none => 0
       else 0)
    | none =>
      match searchRE datePattern3 text with
      | some g =>
        (digitsToNat (groupStr g 1),
         if countGroups datePattern3 > 1 then
           match groupVal g 2 with
           | some s => digitsToNat s
           | none => 0
         else 0)
      | none => (0, 0)

/-- `_extract_date_info`.  The relative-date branch uses plain substring
tests on the lowercased text (`"ontem" in text_lower`, …), in source order.
`target_date.replace(hour=hour, minute=minute)` validates its arguments and
raises `ValueError` exactly when they are out of range, which the `Except`
models (the error strings are CPython's). -/
def _extract_date_info (text : String) (now : PyDateTime) : Except String String :=
  let text_lower := lowerStr text
  let target_date :=
    if containsSub "ontem" text_lower || containsSub "yesterday" text_lower then
      subDays now 1
    else if containsSub "hoje" text_lower || containsSub "today" text_lower then
      now
    else if containsSub "anteontem" text_lower then
      subDays now 2
    else now
  let hm := extractHM text
  if 23 < hm.1 then .error "hour must be in 0..23"
  else if 59 < hm.2 then .error "minute must be in 0..59"
  else .ok (fmtDateTime { target_date with hour := hm.1, minute := hm.2 })

/-- `if len(match.groups()) > 1: return match.group(2) else: return
match.group(1)` — the group selection of `_extract_location`. -/
def pickGroup (pat : RE) (g : Groups) : String :=
  if countGroups pat > 1 then groupStr g 2 else groupStr g 1

/-- `_extract_location` -/
def _extract_location (text : String) : String :=
  match searchRE locPattern1 text with
  | some g => pyStrip (pickGroup locPattern1 g)
  | none =>
    match searchRE locPattern2 text with
    | some g => pyStrip (pickGroup locPattern2 g)
    | none =>
      match searchRE locPattern3 text with
      | some g => pyStrip (pickGroup locPattern3 g)
      | none => "N/A"

/-- First matching pattern of a list, in declared order. -/
def firstSearch (pats : List RE) (text : String) : Option Groups :=
  match pats with
  | [] => none
  | p :: rest =>
    match searchRE p text with
    | some g => some g
    | none => firstSearch rest text

/-- `_extract_incident_type` -/
def _extract_incident_type (text : String) : String :=
  match firstSearch typePatterns text with
  | some g => capitalizePy (pyStrip (groupStr g 1))
  | none => "Incidente não especificado"

/-- `text[:100] + "..." if len(text) > 100 else text` -/
def truncate100 (text : String) : String :=
  if text.length > 100 then text.take 100 ++ "..." else text

/-- `_extract_impact` -/
def _extract_impact (text : String) : String :=
  match firstSearch impPatterns text with
  | some g => pyStrip (groupStr g 1)
  | none => truncate100 text

/-! ### JSON values and the result dictionaries -/

/-- A parsed JSON value (the possible results of `json.loads`). -/
inductive JVal where
  | jnull
  | jbool (b : Bool)
  | jnum (n : Int)
  | jstr (s : String)
  | jarr (xs : List JVal)
  | jobj (kvs : List (String × JVal))

/-- The dictionaries returned by `parse_incident_structure` and
`_fallback_incident_parsing`: `status` is always present; `message` and
`method` are present on some paths only; `incident` is a JSON value
(an object on every reachable path except the degenerate generative
corner cases kept faithful below). -/
structure ParseResult where
  status : String
  message : Option String
  incident : JVal
  method : Option String

def requiredFields : List String :=
  ["data_ocorrencia", "local", "tipo_incidente", "impacto"]

/-- `f in kvs` for a Python dict rendered as an association list. -/
def hasKeyL (kvs : List (String × JVal)) (f : String) : Bool :=
  kvs.any (fun p => p.1 == f)

/-- `d[f]` for a Python dict rendered as an association list. -/
def lookupJ (v : JVal) (f : String) : Option JVal :=
  match v with
  | .jobj kvs => (kvs.find? (fun p => p.1 == f)).map (fun p => p.2)
  | _ => none

/-- `f in v` restricted to objects. -/
def hasKeyJ (v : JVal) (f : String) : Bool :=
  match v with
  | .jobj kvs => hasKeyL kvs f
  | _ => false

/-- The keys of a JSON object, in insertion order. -/
def objKeys : JVal → List String
  | .jobj kvs => kvs.map (fun p => p.1)
  | _ => []

/-- Whether a JSON value is an object all of whose values are strings. -/
def allValuesStr : JVal → Bool
  | .jobj kvs => kvs.all (fun p => match p.2 with | .jstr _ => true | _ => false)
  | _ => false

/-- `field in parsed_json` for an arbitrary JSON value; `none` models the
`TypeError` Python raises when the value does not support `in` with a
string operand. -/
def pyContains (v : JVal) (f : String) : Option Bool :=
  match v with
  | .jobj kvs => some (hasKeyL kvs f)
  | .jstr s => some (containsSub f s)
  | .jarr xs => some (xs.any (fun x => match x with | .jstr s => s == f | _ => false))
  | _ => none

/-- `str` of the `TypeError` raised by `field in v` on a non-container. -/
def containsTypeError (v : JVal) : String :=
  match v with
  | .jnull => "argument of type 'NoneType' is not iterable"
  | .jbool _ => "argument of type 'bool' is not iterable"
  | .jnum _ => "argument of type 'int' is not iterable"
  | _ => ""

/-- `str` of the `TypeError` raised by `v[field] = …` on a non-dict. -/
def assignTypeError (v : JVal) : String :=
  match v with
  | .jstr _ => "'str' object does not support item assignment"
  | .jarr _ => "list indices must be integers or slices, not str"
  | _ => ""

/-- The field-validation loop of `parse_incident_structure`:
`for field in required_fields: if field not in parsed_json:
parsed_json[field] = "N/A"`.  A `TypeError` (non-container value, or item
assignment on a non-dict) escapes to the outer `except` and is modelled by
`.error`. -/
def fillFields : List String → JVal → Except String JVal
  | [], v => .ok v
  | f :: fs, v =>
    match pyContains v f with
    | none => .error (containsTypeError v)
    | some true => fillFields fs v
    | some false =>
      match v with
      | .jobj kvs => fillFields fs (.jobj (kvs ++ [(f, .jstr "N/A")]))
      | _ => .error (assignTypeError v)

/-- `_fallback_incident_parsing`.  The `try` block can only raise through
`_extract_date_info` (the `ValueError` of `datetime.replace`); the `error`
parameter is the optional exception text handed down by the caller
(`error or str(e)`). -/
def _fallback_incident_parsing (incident_description : String) (error : Option String)
    (now : PyDateTime) : ParseResult :=
  match _extract_date_info incident_description now with
  | .ok date_occurrence =>
    { status := "success"
      message := none
      incident := .jobj
        [ ("data_ocorrencia", .jstr date_occurrence)
        , ("local", .jstr (_extract_location incident_description))
        , ("tipo_incidente", .jstr (_extract_incident_type incident_description))
        , ("impacto", .jstr (_extract_impact incident_description)) ]
      method := some "regex_fallback" }
  | .error e =>
    let error_message := error.getD e
    { status := "error"
      message := some ("Parsing failed: " ++ error_message)
      incident := .jobj
        [ ("data_ocorrencia", .jstr (fmtDateTime now))
        , ("local", .jstr "N/A")
        , ("tipo_incidente", .jstr "Erro no processamento")
        , ("impacto", .jstr (truncate100 incident_description)) ]
      method := none }

/-! ### Orchestrator (`parse_incident_structure`)

The HTTP round trip to the generative model is abstracted into a
`GenOutcome` value: either the `httpx` call (or anything else inside the
outer `try`, e.g. `response.json()`) raised — carrying `str` of the
exception — or a response with a status code arrived, in which case
`llmJson` is the result of `json.loads` on the model's response text
(`none` = `json.JSONDecodeError`). -/

inductive GenOutcome where
  | exc (msg : String)
  | resp (status : Nat) (llmJson : Option JVal)

def parse_incident_structure (incident_description : String) (go : GenOutcome)
    (now : PyDateTime) : ParseResult :=
  match go with
  | .exc msg => _fallback_incident_parsing incident_description (some msg) now
  | .resp status llmJson =>
    if status = 200 then
      match llmJson with
      | some parsed_json =>
        match fillFields requiredFields parsed_json with
        | .ok validated =>
          { status := "success", message := none, incident := validated, method := none }
        | .error msg => _fallback_incident_parsing incident_description (some msg) now
      | none => _fallback_incident_parsing incident_description none now
    else _fallback_incident_parsing incident_description none now

/-! ### Batch endpoint (`parse_batch_incidents` of `src/main.py`) -/

structure IncidentRequest where
  description : String
  model : String
  deriving DecidableEq, Repr

structure IncidentResponse where
  status : String
  incident : Option JVal
  error : Option String

/-- What processing one item (`await parse_incident(request)`) did:
either it returned a response, or it raised (`str` of the exception). -/
inductive ItemOutcome where
  | ok (r : IncidentResponse)
  | exn (msg : String)

/-- One iteration of the batch loop: a raised exception is converted into
an error response naming the 1-based item index. -/
def batchItem (handler : IncidentRequest → ItemOutcome) (i : Nat)
    (req : IncidentRequest) : IncidentResponse :=
  match handler req with
  | .ok r => r
  | .exn msg =>
    { status := "error", incident := none
      error := some ("Failed to process incident " ++ toString (i + 1) ++ ": " ++ msg) }

/-- The `for i, request in enumerate(requests)` loop. -/
def batchLoop (handler : IncidentRequest → ItemOutcome) (i : Nat) :
    List IncidentRequest → List IncidentResponse
  | [] => []
  | req :: rest => batchItem handler i req :: batchLoop handler (i + 1) rest

/-- `parse_batch_incidents`: reject when the agent is down (HTTP 500) or the
batch exceeds 100 items (HTTP 400), otherwise process the items in order.
An `.error (code, detail)` models the raised `HTTPException`. -/
def parse_batch_incidents (agentUp : Bool) (handler : IncidentRequest → ItemOutcome)
    (requests : List IncidentRequest) : Except (Nat × String) (List IncidentResponse) :=
  if !agentUp then .error (500, "Parser agent not initialized")
  else if requests.length > 100 then .error (400, "Maximum 100 incidents per batch")
  else .ok (batchLoop handler 0 requests)

/-! ### Claims -/

/-- A fixed reference instant for the closed (concrete-input) theorems,
standing for `datetime.now()`: 2025-09-07, 13:22. -/
def nowT : PyDateTime := ⟨2025, 9, 7, 13, 22⟩

/-- C3 (code_bug).  The claim (and the spec) say a text containing
`anteontem` resolves to the current date minus **2** days, and the source
even has an `elif "anteontem" in text_lower` branch subtracting 2 days; but
the first branch tests the plain substring `"ontem" in text_lower`, which
is also true of `"anteontem"`, so that `elif` is unreachable and the code
yields the current date minus **1** day.  At current date 2025-09-07 the
input `"anteontem às 10h"` evaluates to `"2025-09-06 10:00"`, not the
`"2025-09-05 10:00"` the claim requires.  The claim's other clauses behave
as stated: the spec's own example `"ontem às 14h"` yields
`"2025-09-06 14:00"`, and a text with no marker and no time pattern keeps
the current date at `00:00`. -/
theorem claim_C3 :
    _extract_date_info "anteontem às 10h" nowT = .ok "2025-09-06 10:00" ∧
    _extract_date_info "anteontem às 10h" nowT ≠ .ok "2025-09-05 10:00" ∧
    _extract_date_info "ontem às 14h" nowT = .ok "2025-09-06 14:00" ∧
    _extract_date_info "sem marcador" nowT = .ok "2025-09-07 00:00" := by
  refine ⟨by decide, by decide, by decide, by decide⟩

/-- C5 counterexample.  The Normalizer is not idempotent: normalizing
`"falha"` yields `"falha."`, but normalizing that output again yields
`"falha. ."` (the period-spacing substitution rewrites the final `"."` to
`". "`, after which a new terminal period is appended). -/
theorem claim_C5_counterexample :
    preprocess_incident_text nowT (preprocess_incident_text nowT "falha") ≠
      preprocess_incident_text nowT "falha" := by
  decide

/-- C5 amended: the Normalizer is **not** idempotent.  Re-running it
on its own output appends a further `" ."` (space and period), and when a
relative-date marker is present it also re-appends the
`"(horário não especificado)"` and `"[Referência: …]"` annotations, as the
concrete evaluations below show. -/
theorem claim_C5 :
    preprocess_incident_text nowT "falha" = "falha." ∧
    preprocess_incident_text nowT "falha." = "falha. ." ∧
    preprocess_incident_text nowT "falha ontem" =
      "falha ontem. (horário não especificado) [Referência: 2025-09-07]" ∧
    preprocess_incident_text nowT
        "falha ontem. (horário não especificado) [Referência: 2025-09-07]" =
      "falha ontem. (horário não especificado) [Referência: 2025-09-07]. (horário não especificado) [Referência: 2025-09-07]" := by
  refine ⟨by decide, by decide, by decide, by decide⟩

/-! #### Helper lemmas -/

/-- `_extract_date_info` succeeds when the extracted hour/minute are in
range. -/
theorem extract_date_ok (text : String) (now : PyDateTime)
    (h1 : (extractHM text).1 ≤ 23) (h2 : (extractHM text).2 ≤ 59) :
    _extract_date_info text now =
      .ok (fmtDateTime { (if containsSub "ontem" (lowerStr text) ||
              containsSub "yesterday" (lowerStr text) then subDays now 1
            else if containsSub "hoje" (lowerStr text) ||
              containsSub "today" (lowerStr text) then now
            else if containsSub "anteontem" (lowerStr text) then subDays now 2
            else now) with
          hour := (extractHM text).1, minute := (extractHM text).2 }) := by
  simp only [_extract_date_info]
  rw [if_neg (Nat.not_lt.mpr h1), if_neg (Nat.not_lt.mpr h2)]

/-- `_extract_date_info` fails exactly on an out-of-range hour or minute. -/
theorem extract_date_error (text : String) (now : PyDateTime)
    (h : 23 < (extractHM text).1 ∨ 59 < (extractHM text).2) :
    ∃ e, _extract_date_info text now = .error e := by
  simp only [_extract_date_info]
  by_cases h1 : 23 < (extractHM text).1
  · rw [if_pos h1]; exact ⟨_, rfl⟩
  · rcases h with h | h
    · exact absurd h h1
    · rw [if_neg h1, if_pos h]; exact ⟨_, rfl⟩

/-- The incident record built by the fallback extractor does not depend on
the `error` argument (which only feeds the `message` field). -/
theorem fallback_incident_indep (d : String) (e : Option String) (now : PyDateTime) :
    (_fallback_incident_parsing d e now).incident =
      (_fallback_incident_parsing d none now).incident := by
  cases h : _extract_date_info d now <;> simp [_fallback_incident_parsing, h]

/-- C10.  The deterministic extractor's internal-error branch is reachable:
a text whose first matched time pattern yields hour > 23 (`"30h"`) or
minute > 59 (`"14h75"`) makes `_extract_date_info` raise `ValueError` from
`datetime.replace`, and `_fallback_incident_parsing` then returns the
error-status record; conversely, whenever the extracted hour is ≤ 23 and
the minute ≤ 59 (in particular whenever no time pattern matches), no
exception occurs and the success-status record is returned. -/
theorem claim_C10 :
    (_extract_date_info "30h" nowT = .error "hour must be in 0..23" ∧
      (_fallback_incident_parsing "30h" none nowT).status = "error") ∧
    (_extract_date_info "14h75" nowT = .error "minute must be in 0..59" ∧
      (_fallback_incident_parsing "14h75" none nowT).status = "error") ∧
    (∀ text now, 23 < (extractHM text).1 ∨ 59 < (extractHM text).2 →
      (_fallback_incident_parsing text none now).status = "error") ∧
    (∀ text now, (extractHM text).1 ≤ 23 → (extractHM text).2 ≤ 59 →
      (_fallback_incident_parsing text none now).status = "success") := by
  refine ⟨⟨by decide, by decide⟩, ⟨by decide, by decide⟩, ?_, ?_⟩
  · intro text now h
    obtain ⟨e, he⟩ := extract_date_error text now h
    simp [_fallback_incident_parsing, he]
  · intro text now h1 h2
    rw [_fallback_incident_parsing, extract_date_ok text now h1 h2]

/-- C10 witness: both universal parts applied at concrete inputs
(`"9h99"` whose first time match has minute 99, and the spec's example
`"ontem às 14h"` whose match is 14:00). -/
theorem claim_C10_witness :
    (_fallback_incident_parsing "9h99" none nowT).status = "error" ∧
    (_fallback_incident_parsing "ontem às 14h" none nowT).status = "success" :=
  ⟨claim_C10.2.2.1 "9h99" nowT (by decide),
   claim_C10.2.2.2 "ontem às 14h" nowT (by decide) (by decide)⟩

/-- C7 counterexample.  In the error record produced when the deterministic
extractor raises internally, `data_ocorrencia` is
`datetime.now().strftime("%Y-%m-%d %H:%M")` — the current date **at the
current wall-clock time** — not the current date at 00:00 that the claim
states: at reference instant 2025-09-07 13:22 the field is
`"2025-09-07 13:22"`, not `"2025-09-07 00:00"`. -/
theorem claim_C7_counterexample :
    lookupJ (_fallback_incident_parsing "30h" none nowT).incident "data_ocorrencia"
      = some (.jstr "2025-09-07 13:22") ∧
    lookupJ (_fallback_incident_parsing "30h" none nowT).incident "data_ocorrencia"
      ≠ some (.jstr "2025-09-07 00:00") := by
  have e : lookupJ (_fallback_incident_parsing "30h" none nowT).incident "data_ocorrencia"
      = some (.jstr "2025-09-07 13:22") := rfl
  refine ⟨e, fun h => ?_⟩
  rw [e] at h
  injection h with h1
  injection h1 with h2
  exact absurd h2 (by decide)

/-- C7 amended: when `_extract_date_info` raises internally, the caller
receives the error-tagged record whose occurrence timestamp is the current
date **and time** (`now` formatted as `%Y-%m-%d %H:%M`), whose location is
`"N/A"`, whose incident type is the error sentinel
`"Erro no processamento"`, whose impact is the bounded prefix of the raw
text (first 100 characters plus `"..."` when longer), plus a `message`
field describing the error. -/
theorem claim_C7 (d : String) (now : PyDateTime) (e : String)
    (h : _extract_date_info d now = .error e) :
    _fallback_incident_parsing d none now =
      { status := "error"
        message := some ("Parsing failed: " ++ e)
        incident := .jobj
          [ ("data_ocorrencia", .jstr (fmtDateTime now))
          , ("local", .jstr "N/A")
          , ("tipo_incidente", .jstr "Erro no processamento")
          , ("impacto", .jstr (truncate100 d)) ]
        method := none } := by
  simp [_fallback_incident_parsing, h]

/-- C7 witness: the amended claim evaluated at `"30h"` and the reference
instant. -/
theorem claim_C7_witness :
    _fallback_incident_parsing "30h" none nowT =
      { status := "error"
        message := some "Parsing failed: hour must be in 0..23"
        incident := .jobj
          [ ("data_ocorrencia", .jstr "2025-09-07 13:22")
          , ("local", .jstr "N/A")
          , ("tipo_incidente", .jstr "Erro no processamento")
          , ("impacto", .jstr "30h") ]
        method := none } :=
  claim_C7 "30h" nowT "hour must be in 0..23" (by decide)

/-- C1 counterexample.  When the generative call raises a transport
exception and the deterministic extractor then itself fails internally,
the `message` field names the transport error, while the fallback run
alone would name the internal `ValueError` — so the two results are not
exactly equal. -/
theorem claim_C1_counterexample :
    (parse_incident_structure "30h" (.exc "timeout") nowT).message
      = some "Parsing failed: timeout" ∧
    (_fallback_incident_parsing "30h" none nowT).message
      = some "Parsing failed: hour must be in 0..23" ∧
    parse_incident_structure "30h" (.exc "timeout") nowT ≠
      _fallback_incident_parsing "30h" none nowT := by
  refine ⟨rfl, rfl, fun h => ?_⟩
  have hm := congrArg ParseResult.message h
  rw [show (parse_incident_structure "30h" (.exc "timeout") nowT).message
        = some "Parsing failed: timeout" from rfl,
      show (_fallback_incident_parsing "30h" none nowT).message
        = some "Parsing failed: hour must be in 0..23" from rfl] at hm
  injection hm with h1
  exact absurd h1 (by decide)

/-- C1 amended: if the generative path returns a non-success status, or a
200 whose body does not parse as JSON, `parse_incident_structure` returns
**exactly** the record the deterministic extractor alone would produce for
the same raw text; if it raises a transport exception, the four-field
incident record still equals the fallback-alone incident record, but the
`message` field may name the transport error instead of the internal one
when the deterministic extractor itself fails. -/
theorem claim_C1 :
    (∀ d now s b, s ≠ 200 →
      parse_incident_structure d (.resp s b) now = _fallback_incident_parsing d none now) ∧
    (∀ d now, parse_incident_structure d (.resp 200 none) now
      = _fallback_incident_parsing d none now) ∧
    (∀ d now m, (parse_incident_structure d (.exc m) now).incident
      = (_fallback_incident_parsing d none now).incident) := by
  refine ⟨?_, ?_, ?_⟩
  · intro d now s b hs
    simp [parse_incident_structure, hs]
  · intro d now
    rfl
  · intro d now m
    exact fallback_incident_indep d (some m) now

/-- C1 witness: the non-success-status part applied at status 500. -/
theorem claim_C1_witness :
    parse_incident_structure "x" (.resp 500 none) nowT
      = _fallback_incident_parsing "x" none nowT :=
  claim_C1.1 "x" nowT 500 none (by decide)

/-- C6.  For every input on which none of the three location patterns, none
of the five incident-type patterns and none of the five impact patterns
matches, the deterministic field extractors fail closed: location `"N/A"`,
incident type `"Incidente não especificado"`, and impact equal to the raw
text itself when its length is at most 100 characters and to its first 100
characters followed by `"..."` otherwise. -/
theorem claim_C6 (text : String)
    (l1 : searchRE locPattern1 text = none)
    (l2 : searchRE locPattern2 text = none)
    (l3 : searchRE locPattern3 text = none)
    (t1 : searchRE (typePattern "falha") text = none)
    (t2 : searchRE (typePattern "erro") text = none)
    (t3 : searchRE (typePattern "problema") text = none)
    (t4 : searchRE (typePattern "interrupção") text = none)
    (t5 : searchRE (typePattern "pane") text = none)
    (i1 : searchRE impPattern1 text = none)
    (i2 : searchRE impPattern2 text = none)
    (i3 : searchRE impPattern3 text = none)
    (i4 : searchRE impPattern4 text = none)
    (i5 : searchRE impPattern5 text = none) :
    _extract_location text = "N/A" ∧
    _extract_incident_type text = "Incidente não especificado" ∧
    _extract_impact text =
      (if text.length > 100 then text.take 100 ++ "..." else text) := by
  refine ⟨?_, ?_, ?_⟩
  · simp [_extract_location, l1, l2, l3]
  · simp [_extract_incident_type, firstSearch, typePatterns, t1, t2, t3, t4, t5]
  · simp [_extract_impact, firstSearch, impPatterns, truncate100, i1, i2, i3, i4, i5]

/-- C6 witness: the no-match extractions evaluated at `"xyz"`. -/
theorem claim_C6_witness :
    _extract_location "xyz" = "N/A" ∧
    _extract_incident_type "xyz" = "Incidente não especificado" ∧
    _extract_impact "xyz" = "xyz" :=
  claim_C6 "xyz" (by decide) (by decide) (by decide) (by decide) (by decide)
    (by decide) (by decide) (by decide) (by decide) (by decide) (by decide)
    (by decide) (by decide)

/-- Each location pattern declares exactly one capture group, so the group
selection `if len(match.groups()) > 1 then group(2) else group(1)` always
resolves to group 1 — the `group(2)` branch is unreachable. -/
theorem pickGroup_loc1 (g : Groups) : pickGroup locPattern1 g = groupStr g 1 := by
  have h : countGroups locPattern1 = 1 := by decide
  simp [pickGroup, h]

theorem pickGroup_loc2 (g : Groups) : pickGroup locPattern2 g = groupStr g 1 := by
  have h : countGroups locPattern2 = 1 := by decide
  simp [pickGroup, h]

theorem pickGroup_loc3 (g : Groups) : pickGroup locPattern3 g = groupStr g 1 := by
  have h : countGroups locPattern3 = 1 := by decide
  simp [pickGroup, h]

/-- C9 counterexample.  Pattern (a) — the office/branch/site phrase — has
exactly **one** capture group (the other parenthesised groups in its regex
are non-capturing `(?:…)`), so there is no second capture group for the
extractor to return: on `"no escritório de Recife"` the pattern matches
with the single group `"Recife"`, `match.group(2)` does not exist, and the
extractor returns the first group. -/
theorem claim_C9_counterexample :
    countGroups locPattern1 = 1 ∧
    searchRE locPattern1 "no escritório de Recife" = some [(1, "Recife")] ∧
    groupVal [(1, "Recife")] 2 = none ∧
    _extract_location "no escritório de Recife" = "Recife" := by
  refine ⟨by decide, by decide, by decide, by decide⟩

/-- C9 amended: the location extractor tries its three patterns in
declared order and returns the trimmed capture of the first pattern that
matches; every pattern declares exactly one capture group, so the returned
value is always that pattern's **first** capture group (the source's
`group(2)` branch, guarded by `len(match.groups()) > 1`, is dead code);
when no pattern matches it returns `"N/A"`. -/
theorem claim_C9 :
    (countGroups locPattern1 = 1 ∧ countGroups locPattern2 = 1 ∧
      countGroups locPattern3 = 1) ∧
    (∀ text g, searchRE locPattern1 text = some g →
      _extract_location text = pyStrip (groupStr g 1)) ∧
    (∀ text g, searchRE locPattern1 text = none → searchRE locPattern2 text = some g →
      _extract_location text = pyStrip (groupStr g 1)) ∧
    (∀ text g, searchRE locPattern1 text = none → searchRE locPattern2 text = none →
      searchRE locPattern3 text = some g →
      _extract_location text = pyStrip (groupStr g 1)) ∧
    (∀ text, searchRE locPattern1 text = none → searchRE locPattern2 text = none →
      searchRE locPattern3 text = none → _extract_location text = "N/A") := by
  refine ⟨⟨by decide, by decide, by decide⟩, ?_, ?_, ?_, ?_⟩
  · intro text g h1
    simp [_extract_location, h1, pickGroup_loc1]
  · intro text g h1 h2
    simp [_extract_location, h1, h2, pickGroup_loc2]
  · intro text g h1 h2 h3
    simp [_extract_location, h1, h2, h3, pickGroup_loc3]
  · intro text h1 h2 h3
    simp [_extract_location, h1, h2, h3]

/-- C9 witness: all four behavioural parts applied at concrete inputs (one
per pattern, and one no-match input). -/
theorem claim_C9_witness :
    _extract_location "na unidade de Niterói" = "Niterói" ∧
    _extract_location "em Recife, houve falha" = "Recife" ∧
    _extract_location "consta o local: Salvador" = "Salvador" ∧
    _extract_location "qqq" = "N/A" :=
  ⟨claim_C9.2.1 "na unidade de Niterói" [(1, "Niterói")] (by decide),
   claim_C9.2.2.1 "em Recife, houve falha" [(1, "Recife")] (by decide) (by decide),
   claim_C9.2.2.2.1 "consta o local: Salvador" [(1, "Salvador")]
     (by decide) (by decide) (by decide),
   claim_C9.2.2.2.2 "qqq" (by decide) (by decide) (by decide)⟩

/-! #### The validation loop on object payloads -/

/-- On a JSON object, the validation loop appends exactly one `"N/A"` entry
per missing required field, in field order, keeping every present entry
verbatim. -/
theorem fillFields_jobj (fs : List String) (kvs : List (String × JVal)) (hnd : fs.Nodup) :
    fillFields fs (.jobj kvs) =
      .ok (.jobj (kvs ++ (fs.filter (fun f => !hasKeyL kvs f)).map
        (fun f => (f, JVal.jstr "N/A")))) := by
  induction fs generalizing kvs with
  | nil => simp [fillFields]
  | cons f fs ih =>
    rw [List.nodup_cons] at hnd
    cases hk : hasKeyL kvs f with
    | true =>
      have hpc : pyContains (.jobj kvs) f = some true := by simp [pyContains, hk]
      rw [show fillFields (f :: fs) (.jobj kvs) = fillFields fs (.jobj kvs) by
            simp [fillFields, hpc],
          ih kvs hnd.2, List.filter_cons]
      simp [hk]
    | false =>
      have hpc : pyContains (.jobj kvs) f = some false := by simp [pyContains, hk]
      rw [show fillFields (f :: fs) (.jobj kvs)
            = fillFields fs (.jobj (kvs ++ [(f, JVal.jstr "N/A")])) by
            simp [fillFields, hpc],
          ih (kvs ++ [(f, JVal.jstr "N/A")]) hnd.2, List.filter_cons]
      have hcongr : fs.filter (fun g => !hasKeyL (kvs ++ [(f, JVal.jstr "N/A")]) g)
          = fs.filter (fun g => !hasKeyL kvs g) := by
        refine List.filter_congr ?_
        intro g hg
        have hne : (f == g) = false := by
          refine beq_eq_false_iff_ne.mpr ?_
          intro hfg
          exact hnd.1 (hfg ▸ hg)
        simp [hasKeyL, List.any_append, hne]
      rw [hcongr]
      simp [hk, List.append_assoc]

/-- Every field of `fs` is a key of the filled object. -/
theorem hasKeyL_fill (fs : List String) (kvs : List (String × JVal)) (f : String)
    (hf : f ∈ fs) :
    hasKeyL (kvs ++ (fs.filter (fun g => !hasKeyL kvs g)).map
      (fun g => (g, JVal.jstr "N/A"))) f = true := by
  rw [hasKeyL, List.any_append]
  cases hk : hasKeyL kvs f with
  | true =>
    rw [hasKeyL] at hk
    simp [hk]
  | false =>
    have hmem : ((fs.filter (fun g => !hasKeyL kvs g)).map
        (fun g => (g, JVal.jstr "N/A"))).any (fun p => p.1 == f) = true :=
      List.any_eq_true.mpr
        ⟨(f, JVal.jstr "N/A"),
         List.mem_map.mpr ⟨f, List.mem_filter.mpr ⟨hf, by simp [hk]⟩, rfl⟩, by simp⟩
    simp [hmem]

/-- A dict without key `f` contributes nothing to a lookup of `f`. -/
theorem find?_key_none (kvs : List (String × JVal)) (f : String)
    (h : hasKeyL kvs f = false) :
    kvs.find? (fun p => p.1 == f) = none := by
  rw [List.find?_eq_none]
  intro x hx hpx
  have ht : hasKeyL kvs f = true := List.any_eq_true.mpr ⟨x, hx, hpx⟩
  rw [h] at ht
  exact Bool.false_ne_true ht

/-- Looking up a missing required field in the appended `"N/A"` entries. -/
theorem find?_fill (fs : List String) (kvs : List (String × JVal)) (f : String)
    (hf : f ∈ fs) (hk : hasKeyL kvs f = false) :
    ((fs.filter (fun g => !hasKeyL kvs g)).map (fun g => (g, JVal.jstr "N/A"))).find?
      (fun p => p.1 == f) = some (f, JVal.jstr "N/A") := by
  induction fs with
  | nil => cases hf
  | cons g gs ih =>
    rw [List.filter_cons]
    by_cases hgf : g = f
    · subst hgf
      rw [if_pos (by simp [hk]), List.map_cons, List.find?_cons_of_pos _ (by simp)]
    · have hf' : f ∈ gs := by
        cases hf with
        | head => exact absurd rfl hgf
        | tail _ h => exact h
      cases hpg : (!hasKeyL kvs g) with
      | true =>
        rw [if_pos rfl, List.map_cons,
          List.find?_cons_of_neg _ (by simp [beq_eq_false_iff_ne.mpr hgf])]
        exact ih hf'
      | false =>
        rw [if_neg (by simp)]
        exact ih hf'

/-- C2 counterexample.  On the generative success path the validation loop
only adds missing required fields: it neither removes extra keys nor
replaces non-string values.  A well-formed payload `{"extra": null}` yields
an incident record with five keys whose `extra` value is `null` — not a
mapping with exactly the four required keys and all values strings. -/
theorem claim_C2_counterexample :
    objKeys (parse_incident_structure "t" (.resp 200 (some (.jobj [("extra", .jnull)]))) nowT).incident
      = ["extra", "data_ocorrencia", "local", "tipo_incidente", "impacto"] ∧
    objKeys (parse_incident_structure "t" (.resp 200 (some (.jobj [("extra", .jnull)]))) nowT).incident
      ≠ requiredFields ∧
    allValuesStr (parse_incident_structure "t" (.resp 200 (some (.jobj [("extra", .jnull)]))) nowT).incident
      = false := by
  refine ⟨rfl, by decide, rfl⟩

/-- C2 amended: on every fallback path the incident record is a mapping
with exactly the four keys `data_ocorrencia`, `local`, `tipo_incidente`,
`impacto` (in that order) and every value a string; on the generative
success path with an object payload, the record contains **at least** the
four required keys (absent ones filled in), but extra keys and non-string
values from the payload are preserved verbatim. -/
theorem claim_C2 :
    (∀ d e now,
      objKeys ((_fallback_incident_parsing d e now).incident) = requiredFields ∧
      allValuesStr ((_fallback_incident_parsing d e now).incident) = true) ∧
    (∀ kvs d now,
      (parse_incident_structure d (.resp 200 (some (.jobj kvs))) now).status = "success" ∧
      hasKeyJ (parse_incident_structure d (.resp 200 (some (.jobj kvs))) now).incident
        "data_ocorrencia" = true ∧
      hasKeyJ (parse_incident_structure d (.resp 200 (some (.jobj kvs))) now).incident
        "local" = true ∧
      hasKeyJ (parse_incident_structure d (.resp 200 (some (.jobj kvs))) now).incident
        "tipo_incidente" = true ∧
      hasKeyJ (parse_incident_structure d (.resp 200 (some (.jobj kvs))) now).incident
        "impacto" = true) := by
  constructor
  · intro d e now
    cases h : _extract_date_info d now <;>
      simp [_fallback_incident_parsing, h, objKeys, allValuesStr, requiredFields]
  · intro kvs d now
    have hfill := fillFields_jobj requiredFields kvs (by decide)
    have hp : parse_incident_structure d (.resp 200 (some (.jobj kvs))) now =
        { status := "success", message := none
          incident := .jobj (kvs ++ (requiredFields.filter (fun f => !hasKeyL kvs f)).map
            (fun f => (f, JVal.jstr "N/A")))
          method := none } := by
      simp [parse_incident_structure, hfill]
    rw [hp]
    refine ⟨rfl, ?_, ?_, ?_, ?_⟩ <;>
      exact hasKeyL_fill requiredFields kvs _ (by simp [requiredFields])

/-- C4 counterexample.  A well-formed payload missing `tipo_incidente` gets
that field filled with the uniform string `"N/A"`, not with the field's own
sentinel `"Incidente não especificado"`: the validation loop uses the same
`"N/A"` fill for every missing field. -/
theorem claim_C4_counterexample :
    lookupJ (parse_incident_structure "t"
        (.resp 200 (some (.jobj
          [ ("data_ocorrencia", .jstr "2025-09-06 14:00")
          , ("local", .jstr "São Paulo")
          , ("impacto", .jstr "2 horas") ]))) nowT).incident "tipo_incidente"
      = some (.jstr "N/A") ∧
    lookupJ (parse_incident_structure "t"
        (.resp 200 (some (.jobj
          [ ("data_ocorrencia", .jstr "2025-09-06 14:00")
          , ("local", .jstr "São Paulo")
          , ("impacto", .jstr "2 horas") ]))) nowT).incident "tipo_incidente"
      ≠ some (.jstr "Incidente não especificado") := by
  refine ⟨rfl, fun h => ?_⟩
  rw [show lookupJ (parse_incident_structure "t"
        (.resp 200 (some (.jobj
          [ ("data_ocorrencia", .jstr "2025-09-06 14:00")
          , ("local", .jstr "São Paulo")
          , ("impacto", .jstr "2 horas") ]))) nowT).incident "tipo_incidente"
      = some (.jstr "N/A") from rfl] at h
  injection h with h1
  injection h1 with h2
  exact absurd h2 (by decide)

/-- C4 amended: on a well-formed object payload, **every** absent required
field is filled with the same string `"N/A"` (not a per-field sentinel),
and every present field is kept verbatim; in particular a payload missing
only `local` yields exactly the payload extended with
`local = "N/A"`, the other three fields verbatim. -/
theorem claim_C4 :
    (∀ kvs d now, hasKeyL kvs "data_ocorrencia" = true →
      hasKeyL kvs "tipo_incidente" = true → hasKeyL kvs "impacto" = true →
      hasKeyL kvs "local" = false →
      parse_incident_structure d (.resp 200 (some (.jobj kvs))) now =
        { status := "success", message := none
          incident := .jobj (kvs ++ [("local", JVal.jstr "N/A")]), method := none }) ∧
    (∀ kvs d now f, f ∈ requiredFields → hasKeyL kvs f = false →
      lookupJ (parse_incident_structure d (.resp 200 (some (.jobj kvs))) now).incident f
        = some (.jstr "N/A")) := by
  constructor
  · intro kvs d now h1 h2 h3 h4
    have hfill := fillFields_jobj requiredFields kvs (by decide)
    rw [show requiredFields.filter (fun f => !hasKeyL kvs f) = ["local"] by
        simp [requiredFields, List.filter, h1, h2, h3, h4]] at hfill
    simp [parse_incident_structure, hfill]
  · intro kvs d now f hf hk
    have hfill := fillFields_jobj requiredFields kvs (by decide)
    have hp : (parse_incident_structure d (.resp 200 (some (.jobj kvs))) now).incident =
        .jobj (kvs ++ (requiredFields.filter (fun g => !hasKeyL kvs g)).map
          (fun g => (g, JVal.jstr "N/A"))) := by
      simp [parse_incident_structure, hfill]
    rw [hp, lookupJ, List.find?_append, find?_key_none kvs f hk,
      find?_fill requiredFields kvs f hf hk]
    rfl

/-- C4 witness: the missing-only-`local` part and the general `"N/A"` fill
applied to a concrete payload. -/
theorem claim_C4_witness :
    parse_incident_structure "d" (.resp 200 (some (.jobj
        [ ("data_ocorrencia", .jstr "2025-09-06 14:00")
        , ("tipo_incidente", .jstr "Falha no servidor")
        , ("impacto", .jstr "2 horas") ]))) nowT =
      { status := "success", message := none
        incident := .jobj
          [ ("data_ocorrencia", .jstr "2025-09-06 14:00")
          , ("tipo_incidente", .jstr "Falha no servidor")
          , ("impacto", .jstr "2 horas")
          , ("local", JVal.jstr "N/A") ]
        method := none } ∧
    lookupJ (parse_incident_structure "d" (.resp 200 (some (.jobj
        [ ("data_ocorrencia", .jstr "2025-09-06 14:00")
        , ("tipo_incidente", .jstr "Falha no servidor")
        , ("impacto", .jstr "2 horas") ]))) nowT).incident "local"
      = some (.jstr "N/A") :=
  ⟨claim_C4.1 _ "d" nowT (by decide) (by decide) (by decide) (by decide),
   claim_C4.2 _ "d" nowT "local" (by simp [requiredFields]) (by decide)⟩

/-! #### Batch processing -/

theorem batchLoop_length (handler : IncidentRequest → ItemOutcome) (k : Nat)
    (l : List IncidentRequest) : (batchLoop handler k l).length = l.length := by
  induction l generalizing k with
  | nil => rfl
  | cons r rest ih => simp [batchLoop, ih]

theorem batchLoop_getElem? (handler : IncidentRequest → ItemOutcome)
    (l : List IncidentRequest) (k i : Nat) :
    (batchLoop handler k l)[i]? = l[i]?.map (batchItem handler (k + i)) := by
  induction l generalizing k i with
  | nil => simp [batchLoop]
  | cons r rest ih =>
    cases i with
    | zero => simp [batchLoop]
    | succ i =>
      have := ih (k + 1) i
      simpa [batchLoop, Nat.add_assoc, Nat.add_comm 1 i] using this

/-- C8.  With the agent initialized, a batch of more than 100 items is
rejected with HTTP 400 before any item is processed and no partial results
are returned; a batch of at most 100 items yields exactly one outcome per
input, in input order (the `i`-th response is the processing outcome of the
`i`-th request, a raised exception being converted to an error response
naming item `i+1`). -/
theorem claim_C8 :
    (∀ (handler : IncidentRequest → ItemOutcome) (reqs : List IncidentRequest),
      reqs.length > 100 →
      parse_batch_incidents true handler reqs =
        .error (400, "Maximum 100 incidents per batch")) ∧
    (∀ (handler : IncidentRequest → ItemOutcome) (reqs : List IncidentRequest),
      reqs.length ≤ 100 →
      parse_batch_incidents true handler reqs = .ok (batchLoop handler 0 reqs) ∧
      (batchLoop handler 0 reqs).length = reqs.length ∧
      ∀ i, (batchLoop handler 0 reqs)[i]? = reqs[i]?.map (batchItem handler i)) := by
  constructor
  · intro handler reqs h
    simp [parse_batch_incidents, h]
  · intro handler reqs h
    refine ⟨?_, batchLoop_length handler 0 reqs, fun i => ?_⟩
    · simp [parse_batch_incidents, Nat.not_lt.mpr h]
    · simpa using batchLoop_getElem? handler reqs 0 i

/-- C8 witness: the cap applied to a batch of 101 identical requests, and
the in-order processing of a 2-item batch. -/
theorem claim_C8_witness :
    parse_batch_incidents true (fun _ => .ok ⟨"success", none, none⟩)
        (List.replicate 101 ⟨"a", "tinyllama"⟩) =
      .error (400, "Maximum 100 incidents per batch") ∧
    parse_batch_incidents true (fun _ => .ok ⟨"success", none, none⟩)
        [⟨"a", "tinyllama"⟩, ⟨"b", "tinyllama"⟩] =
      .ok (batchLoop (fun _ => .ok ⟨"success", none, none⟩) 0
        [⟨"a", "tinyllama"⟩, ⟨"b", "tinyllama"⟩]) :=
  ⟨claim_C8.1 _ _ (by decide),
   (claim_C8.2 _ _ (by decide)).1⟩

end IncidentTools
